import Mathlib

/-!
Shallow embedding of the `nanval` crate (a NaN-boxing value representation)
and proofs about its specification claims.

Machine integers (`u64`, `u32`, `u16`) are modelled as `Nat`; every bitwise
operation of the source (`&`, `|`, `^`, `<<`, `>>`) maps to the corresponding
`Nat` operation, and the one use of `!` (bitwise complement within `u64`) is
made explicit as XOR against the all-ones 64-bit word.  `f64` values are
modelled by their 64-bit bit patterns, which is faithful because the source
only ever inspects floats through `to_bits` / the union's integer view.
Fallible operations return `Option`; a Rust panic is modelled as `none`.
-/

/-! ## Constants from `cons.rs` -/

/-- Constant from cons.rs: the maximum integer losslessly stored in an f64. -/
def MAX_INT : Nat := 9007199254740991

/-- Constant from cons.rs: the sign bit of a 64-bit word. -/
def SIGN_BIT : Nat := 0x8000000000000000

/-- Constant from cons.rs: the canonical quiet-NaN bit pattern. -/
def NAN_BITS : Nat := 0x7FF8000000000000

/-- Constant from cons.rs: positive infinity. -/
def POS_INF_BITS : Nat := 0x7FF0000000000000

/-- Constant from cons.rs: negative infinity. -/
def NEG_INF_BITS : Nat := 0xFFF0000000000000

/-- Constant from cons.rs: negative zero. -/
def NEG_ZERO_BITS : Nat := 0x8000000000000000

/-- Bitwise complement inside a 64-bit word, modelling Rust `!x` on `u64`. -/
def compl64 (x : Nat) : Nat := 0xFFFFFFFFFFFFFFFF ^^^ x

/-! ## Constants from `lib.rs` (the generic tagged union) -/

/-- Constant from lib.rs: `NAN_SIGNAL`, the top-16-bit signal pattern. -/
def NAN_SIGNAL : Nat := 0xFFF0000000000000

/-- Constant from lib.rs: `NAN_MASK`, masking the top 16 bits. -/
def NAN_MASK : Nat := 0xFFFF000000000000

/-- Constant from lib.rs: `NAN_UNMASK`. -/
def NAN_UNMASK : Nat := 0x0000FFFFFFFFFFFF

/-- Constant from lib.rs: `TAG_SHIFT`. -/
def TAG_SHIFT : Nat := 48

/-- Constant from lib.rs: `TAG_MASK`. -/
def TAG_MASK : Nat := 0x0000FFFF00000000

/-- Constant from lib.rs: `DAT_MASK`. -/
def DAT_MASK : Nat := 0x00000000FFFFFFFF

/-- Constant from lib.rs: `DAT_UNMASK`. -/
def DAT_UNMASK : Nat := 0xFFFFFFFF00000000

/-! ## Operations of `RawNaNVal` from `lib.rs` (current implementation)

The union `RawNaNVal<TAG, DAT>` is modelled by the `Nat` holding its 64-bit
field `u`.  The generic `TAG` round-trips through `NonZeroU16` (a `Nat` `t`
with `1 ≤ t < 2^16`) and `DAT` through `u32` (a `Nat` `d` with `d < 2^32`);
the conversions are identities on those raw integers, so the embedding works
directly with the raw integers. -/

/-- Embeds `RawNaNVal::has_tag`: `(self.u & NAN_MASK) == NAN_SIGNAL`. -/
def has_tag (u : Nat) : Bool := (u &&& NAN_MASK) == NAN_SIGNAL

/-- Embeds `RawNaNVal::has_f64`: `(self.u & NAN_MASK) != NAN_SIGNAL`. -/
def has_f64 (u : Nat) : Bool := (u &&& NAN_MASK) != NAN_SIGNAL

/-- Embeds `RawNaNVal::from_float`: wraps the float's bits, failing when the
new union would report `has_tag`. -/
def from_float (f : Nat) : Option Nat :=
  if has_tag f then none else some f

/-- Embeds `RawNaNVal::from_tag`: `NAN_SIGNAL | ((tag << TAG_SHIFT) & TAG_MASK)`. -/
def from_tag (tag : Nat) : Nat :=
  NAN_SIGNAL ||| ((tag <<< TAG_SHIFT) &&& TAG_MASK)

/-- Embeds `RawNaNVal::from_tag_and_data`:
`NAN_SIGNAL | ((tag << TAG_SHIFT) & TAG_MASK) | (dat & DAT_MASK)`. -/
def from_tag_and_data (tag dat : Nat) : Nat :=
  NAN_SIGNAL ||| ((tag <<< TAG_SHIFT) &&& TAG_MASK) ||| (dat &&& DAT_MASK)

/-- Embeds `RawNaNVal::get_tag_unchecked`: `(self.u & TAG_MASK) >> TAG_SHIFT`.
The Rust code feeds this number to `NonZeroU16::new_unchecked`, which is
undefined behaviour when it is zero; the embedding returns the raw number. -/
def get_tag_unchecked (u : Nat) : Nat := (u &&& TAG_MASK) >>> TAG_SHIFT

/-- Embeds `RawNaNVal::get_dat_raw_unchecked`: `(self.u & DAT_MASK) as u32`. -/
def get_dat_raw_unchecked (u : Nat) : Nat := u &&& DAT_MASK

/-- Embeds `RawNaNVal::set_dat_unchecked`:
`self.u &= DAT_UNMASK; self.u |= dat & DAT_MASK` (state passed explicitly). -/
def set_dat_unchecked (u dat : Nat) : Nat :=
  (u &&& DAT_UNMASK) ||| (dat &&& DAT_MASK)

/-- Embeds `RawNaNVal::set_tag_and_dat`: full overwrite of the word. -/
def set_tag_and_dat (tag dat : Nat) : Nat :=
  NAN_SIGNAL ||| ((tag <<< TAG_SHIFT) &&& TAG_MASK) ||| (dat &&& DAT_MASK)

/-- Embeds `RawNaNVal::with_dat`: a non-destructive copy with replaced data
when a tag is present, `None` for a float-holding union. -/
def with_dat (u dat : Nat) : Option Nat :=
  if has_tag u then some (set_dat_unchecked u dat) else none

/-- Embeds `RawNaNVal::set_f64`: overwrites the union with the float's bits. -/
def set_f64 (u f : Nat) : Nat :=
  let _ := u
  f

/-- Embeds `RawNaNVal::get_f64`: the contained float, or `None` under a tag. -/
def get_f64 (u : Nat) : Option Nat :=
  if has_tag u then none else some u

/-- Embeds `RawNaNVal::get_tag`: the tag, or `None` for a float. -/
def get_tag (u : Nat) : Option Nat :=
  if has_tag u then some (get_tag_unchecked u) else none

/-- Embeds `RawNaNVal::get_dat`: the data, or `None` for a float. -/
def get_dat (u : Nat) : Option Nat :=
  if has_tag u then some (get_dat_raw_unchecked u) else none

/-- Embeds `RawNaNVal::get_tag_and_dat`: both fields, or `None` for a float. -/
def get_tag_and_dat (u : Nat) : Option (Nat × Nat) :=
  if has_tag u then some (get_tag_unchecked u, get_dat_raw_unchecked u) else none

/-! ## Operations of `RawNaNVal` from `old.rs` (legacy implementation)

`old.rs` re-declares `TAG_SHIFT`/`TAG_MASK`/`DAT_MASK`/`DAT_UNMASK` with the
same values and reuses `NAN_SIGNAL`/`NAN_MASK` from the crate root.  Its
`debug_assert!` calls are compiled out in release builds and do not change
any computed value, so they do not appear in the embedding. -/

/-- Constant from old.rs: its local `TAG_SHIFT`. -/
def old_TAG_SHIFT : Nat := 48

/-- Constant from old.rs: its local `TAG_MASK`. -/
def old_TAG_MASK : Nat := 0x0000FFFF00000000

/-- Constant from old.rs: its local `DAT_MASK`. -/
def old_DAT_MASK : Nat := 0x00000000FFFFFFFF

/-- Constant from old.rs: its local `DAT_UNMASK`. -/
def old_DAT_UNMASK : Nat := 0xFFFFFFFF00000000

/-- Embeds legacy `RawNaNVal::has_tag`. -/
def old_has_tag (u : Nat) : Bool := (u &&& NAN_MASK) == NAN_SIGNAL

/-- Embeds legacy `RawNaNVal::has_f64`. -/
def old_has_f64 (u : Nat) : Bool := (u &&& NAN_MASK) != NAN_SIGNAL

/-- Embeds legacy `RawNaNVal::from_float`. -/
def old_from_float (f : Nat) : Option Nat :=
  if old_has_tag f then none else some f

/-- Embeds legacy `RawNaNVal::from_tag`. -/
def old_from_tag (tag : Nat) : Nat :=
  NAN_SIGNAL ||| ((tag <<< old_TAG_SHIFT) &&& old_TAG_MASK)

/-- Embeds legacy `RawNaNVal::from_tag_and_data`. -/
def old_from_tag_and_data (tag dat : Nat) : Nat :=
  NAN_SIGNAL ||| ((tag <<< old_TAG_SHIFT) &&& old_TAG_MASK) ||| (dat &&& old_DAT_MASK)

/-- Embeds legacy `RawNaNVal::get_tag_unchecked` (raw number, as above). -/
def old_get_tag_unchecked (u : Nat) : Nat := (u &&& old_TAG_MASK) >>> old_TAG_SHIFT

/-- Embeds legacy `RawNaNVal::get_dat_raw_unchecked`. -/
def old_get_dat_raw_unchecked (u : Nat) : Nat := u &&& old_DAT_MASK

/-- Embeds legacy `RawNaNVal::set_dat_unchecked`. -/
def old_set_dat_unchecked (u dat : Nat) : Nat :=
  (u &&& old_DAT_UNMASK) ||| (dat &&& old_DAT_MASK)

/-- Embeds legacy `RawNaNVal::with_dat`. -/
def old_with_dat (u dat : Nat) : Option Nat :=
  if old_has_tag u then some (old_set_dat_unchecked u dat) else none

/-- Embeds legacy `RawNaNVal::get_f64`. -/
def old_get_f64 (u : Nat) : Option Nat :=
  if old_has_tag u then none else some u

/-- Embeds legacy `RawNaNVal::get_tag`. -/
def old_get_tag (u : Nat) : Option Nat :=
  if old_has_tag u then some (old_get_tag_unchecked u) else none

/-- Embeds legacy `RawNaNVal::get_dat`. -/
def old_get_dat (u : Nat) : Option Nat :=
  if old_has_tag u then some (old_get_dat_raw_unchecked u) else none

/-- Embeds legacy `RawNaNVal::get_tag_and_dat`. -/
def old_get_tag_and_dat (u : Nat) : Option (Nat × Nat) :=
  if old_has_tag u then some (old_get_tag_unchecked u, old_get_dat_raw_unchecked u) else none

/-! ## The cell scheme from `cell.rs` -/

/-- Constant from cell.rs: `CELL_MARKER_BITS = SIGN_BIT | NAN_BITS`. -/
def CELL_MARKER_BITS : Nat := SIGN_BIT ||| NAN_BITS

/-- Constant from cell.rs: `CELL_MARKER_MASK = SIGN_BIT | NAN_BITS`. -/
def CELL_MARKER_MASK : Nat := SIGN_BIT ||| NAN_BITS

/-- Constant from cell.rs: `CELL_TAG_BITS`, the 3 tag bits. -/
def CELL_TAG_BITS : Nat := 0x0007000000000000

/-- Embeds the `CellTag` enum of cell.rs: seven variants, tag `0` undefined. -/
inductive CellTag where
  | tag1
  | tag2
  | tag3
  | tag4
  | tag5
  | tag6
  | tag7
deriving DecidableEq

/-- Discriminant values of the `repr(u64)` enum `CellTag` (`Tag1 = 0x0001000000000000`, ...),
modelling Rust's `tag as u64`. -/
def CellTag.toU64 : CellTag → Nat
  | .tag1 => 0x0001000000000000
  | .tag2 => 0x0002000000000000
  | .tag3 => 0x0003000000000000
  | .tag4 => 0x0004000000000000
  | .tag5 => 0x0005000000000000
  | .tag6 => 0x0006000000000000
  | .tag7 => 0x0007000000000000

/-- Embeds `impl TryFrom of u64 for CellTag`; the `Result` with unit error is
modelled as `Option`. -/
def CellTag.try_from (value : Nat) : Option CellTag :=
  if value = 0x0001000000000000 then some .tag1
  else if value = 0x0002000000000000 then some .tag2
  else if value = 0x0003000000000000 then some .tag3
  else if value = 0x0004000000000000 then some .tag4
  else if value = 0x0005000000000000 then some .tag5
  else if value = 0x0006000000000000 then some .tag6
  else if value = 0x0007000000000000 then some .tag7
  else none

/-- Constant from cell.rs: `CELL_TAG_3 = CellTag::Tag3 as u64`. -/
def CELL_TAG_3 : Nat := CellTag.tag3.toU64

/-- Constant from cell.rs: `CELL_TAG_5 = CellTag::Tag5 as u64`. -/
def CELL_TAG_5 : Nat := CellTag.tag5.toU64

/-- Constant from cell.rs: `CELL_DATA_BITS = !(CELL_MARKER_BITS | CELL_TAG_BITS)`. -/
def CELL_DATA_BITS : Nat := compl64 (CELL_MARKER_BITS ||| CELL_TAG_BITS)

/-- Embeds `cell::is_cell`: `(v & CELL_MARKER_BITS) == CELL_MARKER_BITS`. -/
def is_cell (v : Nat) : Bool := (v &&& CELL_MARKER_BITS) == CELL_MARKER_BITS

/-- Embeds `cell::unwrap_tag_bits_unchecked`: `v & CELL_TAG_BITS`. -/
def unwrap_tag_bits_unchecked (v : Nat) : Nat := v &&& CELL_TAG_BITS

/-- Embeds `cell::unwrap_tag`: note the source applies `CellTag::try_from` to
the full raw word `value.as_raw_bits_64()`, not to its masked tag bits. -/
def unwrap_tag (v : Nat) : Option CellTag :=
  match is_cell v with
  | true => CellTag.try_from v
  | false => none

/-- Embeds `cell::unwrap_cell_unchecked`: `v & CELL_DATA_BITS`. -/
def unwrap_cell_unchecked (v : Nat) : Nat := v &&& CELL_DATA_BITS

/-- Embeds `cell::unwrap_cell`. -/
def unwrap_cell (v : Nat) : Option Nat :=
  match is_cell v with
  | true => some (unwrap_cell_unchecked v)
  | false => none

/-- Embeds `cell::unwrap_cell_rawptr`; the returned `*const ()` is modelled by
its address, which is exactly the value the Rust cast produces. -/
def unwrap_cell_rawptr (v : Nat) : Option Nat :=
  match is_cell v with
  | true => some (unwrap_cell_unchecked v)
  | false => none

/-- Embeds `cell::from_tag_and_pointer`; the pointer argument is modelled by
its address (`ptr as u64`). -/
def from_tag_and_pointer (tag : CellTag) (ptr : Nat) : Option Nat :=
  let vtag := tag.toU64 &&& CELL_TAG_BITS
  let vptr := ptr &&& CELL_DATA_BITS
  if vtag ≠ tag.toU64 then none
  else if vptr ≠ ptr then none
  else some (CELL_MARKER_BITS ||| vtag ||| vptr)

/-! ## The uint scheme from `uint.rs` -/

/-- Constant from uint.rs: `UINT_MARKER_BITS = NAN_BITS` (sign bit clear). -/
def UINT_MARKER_BITS : Nat := NAN_BITS

/-- Constant from uint.rs: `UINT_MARKER_MASK = SIGN_BIT | NAN_BITS`. -/
def UINT_MARKER_MASK : Nat := SIGN_BIT ||| NAN_BITS

/-- Constant from uint.rs: `UINT_DATA_BITS = !UINT_MARKER_MASK`. -/
def UINT_DATA_BITS : Nat := compl64 UINT_MARKER_MASK

/-- Embeds `uint::is_uint`: `(v & UINT_MARKER_MASK) == UINT_MARKER_BITS`. -/
def is_uint (v : Nat) : Bool := (v &&& UINT_MARKER_MASK) == UINT_MARKER_BITS

/-- Embeds `uint::unwrap_uint_unchecked`: `v & UINT_DATA_BITS`. -/
def unwrap_uint_unchecked (v : Nat) : Nat := v &&& UINT_DATA_BITS

/-- Embeds `uint::unwrap_uint`. -/
def unwrap_uint (v : Nat) : Option Nat :=
  match is_uint v with
  | true => some (unwrap_uint_unchecked v)
  | false => none

/-! ## The raw-bits abstraction from `raw.rs` -/

/-- Modelled from the spec: the crate-level predicate `is_float` is referenced
from raw.rs but its defining module is not among the provided source files;
per the spec it is true iff `(v & NAN_BITS) != NAN_BITS` or `v == NAN_BITS`
exactly (the canonical NaN is special-cased as a float). -/
def is_float (v : Nat) : Bool := ((v &&& NAN_BITS) != NAN_BITS) || (v == NAN_BITS)

/-- Native-endian reconstruction `u64::from_ne_bytes` on the reference
(little-endian) platform: byte 0 is least significant. -/
def u64_from_ne_bytes (bytes : List Nat) : Nat :=
  bytes.foldr (fun b acc => b + 256 * acc) 0

/-- Models `TryInto` of a byte slice into `[u8; 8]`: succeeds exactly when the
slice has length 8. -/
def try_into_array8 (l : List Nat) : Option (List Nat) :=
  if l.length = 8 then some l else none

/-- Embeds `impl IntoRawBits64 for &[u8]`, `as_raw_bits_64`: a byte slice is a
`List Nat`; both panics (the explicit branch for short slices and the
`.unwrap()` of the array conversion of `self[0..=3]`, a 4-byte subslice) are
modelled as `none`. -/
def slice_as_raw_bits_64 (s : List Nat) : Option Nat :=
  if 8 ≤ s.length then
    match try_into_array8 (s.take 4) with
    | some bytes => some (u64_from_ne_bytes bytes)
    | none => none
  else none

/-! ## Helper lemmas about masking -/

/-- Low-bits value meets a mask without low bits: the intersection is empty. -/
theorem and_eq_zero_of_lt {x c n : Nat} (hx : x < 2 ^ n)
    (hc : (2 ^ n - 1) &&& c = 0) : x &&& c = 0 := by
  have h1 : x &&& c = (x &&& (2 ^ n - 1)) &&& c := by
    rw [Nat.and_pow_two_sub_one_of_lt_two_pow hx]
  rw [h1, Nat.and_assoc, hc, Nat.and_zero]

/-- The tag written by lib.rs is always destroyed: shifting by `TAG_SHIFT = 48`
moves every tag bit above bit 47, while `TAG_MASK` covers only bits 32–47. -/
theorem shl_tag_and_mask_eq_zero (t : Nat) : (t <<< TAG_SHIFT) &&& TAG_MASK = 0 := by
  have h1 : TAG_MASK = (2 ^ 48 - 1) &&& TAG_MASK := by decide
  rw [h1, ← Nat.and_assoc, Nat.and_pow_two_sub_one_eq_mod]
  simp only [TAG_SHIFT]
  rw [Nat.shiftLeft_eq, Nat.mul_mod_left, Nat.zero_and]

/-! ## Claim theorems -/

/-- Claim C1 (code bug): the generic tagged-union round-trip fails.  The word
built by `from_tag_and_data(1, 5)` decodes to tag `0` (not the original tag
`1`; the Rust code then exhibits undefined behaviour feeding `0` to
`NonZeroU16::new_unchecked`), and in fact the constructed word's tag field is
`0` for every tag, because `(tag << 48) & TAG_MASK` is identically zero. -/
theorem c1_generic_roundtrip_fails :
    get_tag_and_dat (from_tag_and_data 1 5) = some (0, 5)
    ∧ ∀ t d, from_tag_and_data t d &&& TAG_MASK = 0 := by
  constructor
  · decide
  · intro t d
    show (NAN_SIGNAL ||| ((t <<< TAG_SHIFT) &&& TAG_MASK) ||| (d &&& DAT_MASK))
        &&& TAG_MASK = 0
    rw [shl_tag_and_mask_eq_zero, Nat.or_zero, Nat.and_distrib_right, Nat.and_assoc]
    have h1 : NAN_SIGNAL &&& TAG_MASK = 0 := by decide
    have h2 : DAT_MASK &&& TAG_MASK = 0 := by decide
    rw [h1, h2, Nat.and_zero, Nat.or_zero]

/-- Claim C3 counterexample: the canonical NaN pattern `0x7FF8000000000000`
does satisfy `is_uint` (it coincides with the uint encoding of payload 0),
refuting the claim's conjunct that `is_uint` is false on it. -/
theorem c3_canonical_nan_is_uint :
    ¬ (is_uint 0x7FF8000000000000 = false) := by decide

/-- Claim C3 (amended): the canonical NaN pattern classifies as a float via
the spec-modelled `is_float` and is not a cell, but it does satisfy
`is_uint`. -/
theorem c3_canonical_nan_classification :
    is_float 0x7FF8000000000000 = true
    ∧ is_cell 0x7FF8000000000000 = false
    ∧ is_uint 0x7FF8000000000000 = true := by decide

/-- Claim C7 (code bug): `as_raw_bits_64` on a byte slice never succeeds, even
on the 8-byte slice `[0,1,2,3,4,5,6,7]` that the claim requires to succeed:
the implementation converts the 4-byte subslice `self[0..=3]` into an 8-byte
array, and the `.unwrap()` of that failed conversion panics. -/
theorem c7_slice_raw_bits_panics :
    slice_as_raw_bits_64 [0, 1, 2, 3, 4, 5, 6, 7] = none
    ∧ ∀ s, slice_as_raw_bits_64 s = none := by
  constructor
  · decide
  · intro s
    unfold slice_as_raw_bits_64
    by_cases h : 8 ≤ s.length
    · rw [if_pos h]
      have h4 : ¬ (s.take 4).length = 8 := by
        rw [List.length_take]; omega
      unfold try_into_array8
      rw [if_neg h4]
    · rw [if_neg h]

/-- Claim C9: the current (lib.rs) and legacy (old.rs) implementations agree
word-for-word on construction and on the success/failure partition and
results of every decoding operation. -/
theorem c9_current_legacy_equivalence :
    (∀ t, from_tag t = old_from_tag t)
    ∧ (∀ t d, from_tag_and_data t d = old_from_tag_and_data t d)
    ∧ (∀ f, from_float f = old_from_float f)
    ∧ (∀ u, get_f64 u = old_get_f64 u)
    ∧ (∀ u, get_tag u = old_get_tag u)
    ∧ (∀ u, get_dat u = old_get_dat u)
    ∧ (∀ u, get_tag_and_dat u = old_get_tag_and_dat u)
    ∧ (∀ u d, with_dat u d = old_with_dat u d) :=
  ⟨fun _ => rfl, fun _ _ => rfl, fun _ => rfl, fun _ => rfl, fun _ => rfl,
   fun _ => rfl, fun _ => rfl, fun _ _ => rfl⟩

/-- Claim C10: `set_f64` validates nothing, so after writing the float with
bit pattern `0xFFF0000000000000` (negative infinity) the union reports
`has_tag` and refuses to return the float via `get_f64`. -/
theorem c10_set_f64_unvalidated :
    ∀ u, has_tag (set_f64 u 0xFFF0000000000000) = true
      ∧ get_f64 (set_f64 u 0xFFF0000000000000) = none := by
  intro u
  constructor
  · show has_tag 0xFFF0000000000000 = true
    decide
  · show get_f64 0xFFF0000000000000 = none
    decide

/-- Claim C2: for every cell tag and every pointer address representable in
48 bits, `from_tag_and_pointer` succeeds and `unwrap_cell_rawptr` decodes the
constructed word back to exactly the original address. -/
theorem c2_cell_pointer_roundtrip (tag : CellTag) (ptr : Nat) (h : ptr < 2 ^ 48) :
    ∃ w, from_tag_and_pointer tag ptr = some w ∧ unwrap_cell_rawptr w = some ptr := by
  have hD : CELL_DATA_BITS = 2 ^ 48 - 1 := by decide
  have hp : ptr &&& CELL_DATA_BITS = ptr := by
    rw [hD]; exact Nat.and_pow_two_sub_one_of_lt_two_pow h
  have ht : tag.toU64 &&& CELL_TAG_BITS = tag.toU64 := by cases tag <;> decide
  have hcell : is_cell (CELL_MARKER_BITS ||| tag.toU64 ||| ptr) = true := by
    have hm : (CELL_MARKER_BITS ||| tag.toU64 ||| ptr) &&& CELL_MARKER_BITS
        = CELL_MARKER_BITS := by
      rw [Nat.and_distrib_right, Nat.and_distrib_right, Nat.and_self]
      have h1 : tag.toU64 &&& CELL_MARKER_BITS = 0 := by cases tag <;> decide
      have h2 : ptr &&& CELL_MARKER_BITS = 0 :=
        and_eq_zero_of_lt h (by decide)
      rw [h1, h2, Nat.or_zero, Nat.or_zero]
    simp [is_cell, hm]
  have hdat : (CELL_MARKER_BITS ||| tag.toU64 ||| ptr) &&& CELL_DATA_BITS = ptr := by
    rw [Nat.and_distrib_right, Nat.and_distrib_right]
    have h1 : CELL_MARKER_BITS &&& CELL_DATA_BITS = 0 := by decide
    have h2 : tag.toU64 &&& CELL_DATA_BITS = 0 := by cases tag <;> decide
    rw [h1, h2, hp, Nat.zero_or, Nat.zero_or]
  refine ⟨CELL_MARKER_BITS ||| tag.toU64 ||| ptr, ?_, ?_⟩
  · unfold from_tag_and_pointer
    simp only [ht, hp, ne_eq, not_true_eq_false, if_false]
  · unfold unwrap_cell_rawptr
    rw [hcell]
    unfold unwrap_cell_unchecked
    rw [hdat]

/-- Witness for claim C2: the spec's example tag `0b101` (`Tag5`), with the
concrete address 4096. -/
theorem c2_cell_pointer_roundtrip_witness :
    ∃ w, from_tag_and_pointer CellTag.tag5 4096 = some w
      ∧ unwrap_cell_rawptr w = some 4096 :=
  c2_cell_pointer_roundtrip CellTag.tag5 4096 (by decide)

/-- Claim C4 counterexample: the word with sign bit 0, NaN bits set and data
field `0xFFFFFFFFFFFFF` (i.e. `0x7FFFFFFFFFFFFFFF`) does not decode via
`unwrap_uint` to `2^52 - 1 = 4503599627370495`. -/
theorem c4_uint_boundary_counterexample :
    ¬ (unwrap_uint 0x7FFFFFFFFFFFFFFF = some 4503599627370495) := by decide

/-- Claim C4 (amended): that word decodes via `unwrap_uint` to
`2^51 - 1 = 2251799813685247`, because `UINT_DATA_BITS` spans only bits 0–50
(bit 51 is the quiet-NaN bit of the marker, so the 52nd data one-bit is
absorbed into the marker); and flipping the sign bit of any uint word
falsifies `is_uint`. -/
theorem c4_uint_boundary_amended :
    unwrap_uint 0x7FFFFFFFFFFFFFFF = some 2251799813685247
    ∧ ∀ w, is_uint w = true → is_uint (w ^^^ SIGN_BIT) = false := by
  constructor
  · decide
  · intro w hw
    have hM : w &&& UINT_MARKER_MASK = UINT_MARKER_BITS := by
      simpa [is_uint] using hw
    have h63 : w.testBit 63 = false := by
      have h1 := congrArg (fun x => Nat.testBit x 63) hM
      simp only [Nat.testBit_and] at h1
      have h2 : Nat.testBit UINT_MARKER_MASK 63 = true := by decide
      have h3 : Nat.testBit UINT_MARKER_BITS 63 = false := by decide
      rw [h2, h3, Bool.and_true] at h1
      exact h1
    simp only [is_uint]
    rw [beq_eq_false_iff_ne]
    intro hcon
    have h1 := congrArg (fun x => Nat.testBit x 63) hcon
    simp only [Nat.testBit_and, Nat.testBit_xor] at h1
    have h2 : Nat.testBit UINT_MARKER_MASK 63 = true := by decide
    have h3 : Nat.testBit UINT_MARKER_BITS 63 = false := by decide
    have h4 : Nat.testBit SIGN_BIT 63 = true := by decide
    rw [h2, h3, h4, h63, Bool.and_true] at h1
    simp at h1

/-- Witness for claim C4: flipping the sign bit of the concrete uint word
`0x7FF8000000000000` makes `is_uint` false. -/
theorem c4_uint_boundary_witness :
    is_uint (0x7FF8000000000000 ^^^ SIGN_BIT) = false :=
  c4_uint_boundary_amended.2 0x7FF8000000000000 (by decide)

/-- Claim C5 (code bug): `unwrap_tag` never returns a tag for any input,
because `CellTag::try_from` is applied to the full raw word rather than to
its masked tag bits; in particular the cell word `0xFFFB000000000000`, whose
tag bits are `0b011` (`Tag3`), decodes to nothing.  `CellTag::try_from`
itself behaves as claimed on `0` and on `0x0003000000000000`. -/
theorem c5_unwrap_tag_never_some :
    (∀ v, unwrap_tag v = none)
    ∧ is_cell 0xFFFB000000000000 = true
    ∧ unwrap_tag_bits_unchecked 0xFFFB000000000000 = CELL_TAG_3
    ∧ unwrap_tag 0xFFFB000000000000 = none
    ∧ CellTag.try_from 0 = none
    ∧ CellTag.try_from 0x0003000000000000 = some CellTag.tag3 := by
  refine ⟨?_, by decide, by decide, by decide, by decide, by decide⟩
  intro v
  unfold unwrap_tag
  cases hc : is_cell v with
  | false => rfl
  | true =>
    unfold CellTag.try_from
    split_ifs with h1 h2 h3 h4 h5 h6 h7
    · subst h1; exact absurd hc (by decide)
    · subst h2; exact absurd hc (by decide)
    · subst h3; exact absurd hc (by decide)
    · subst h4; exact absurd hc (by decide)
    · subst h5; exact absurd hc (by decide)
    · subst h6; exact absurd hc (by decide)
    · subst h7; exact absurd hc (by decide)
    · rfl

/-- Extracting the top 16 bits of a 64-bit word by mask or by shift gives the
same field. -/
theorem and_high_mask (b : Nat) (hb : b < 2 ^ 64) :
    b &&& ((2 ^ 16 - 1) <<< 48) = (b >>> 48) <<< 48 := by
  apply Nat.eq_of_testBit_eq
  intro i
  simp only [Nat.testBit_and, Nat.testBit_shiftLeft, Nat.testBit_shiftRight,
    Nat.testBit_two_pow_sub_one]
  by_cases h48 : 48 ≤ i
  · have he : 48 + (i - 48) = i := by omega
    by_cases h64 : i < 64
    · simp [ge_iff_le, h48, he, show i - 48 < 16 by omega]
    · have hbi : b.testBit i = false :=
        Nat.testBit_lt_two_pow
          (lt_of_lt_of_le hb (Nat.pow_le_pow_right (by norm_num) (by omega)))
      simp [ge_iff_le, h48, he, hbi]
  · simp [ge_iff_le, h48]

/-- A word reports `has_tag` exactly when its top 16 bits, read off by a
shift, are the NaN-signal pattern `0xFFF0`. -/
theorem has_tag_iff_high (b : Nat) (hb : b < 2 ^ 64) :
    has_tag b = true ↔ b >>> 48 = 0xFFF0 := by
  have hm : NAN_MASK = (2 ^ 16 - 1) <<< 48 := by decide
  have hkey : b &&& NAN_MASK = (b >>> 48) <<< 48 := by
    rw [hm]; exact and_high_mask b hb
  have hsig : NAN_SIGNAL = 0xFFF0 <<< 48 := by decide
  constructor
  · intro h
    have h1 : b &&& NAN_MASK = NAN_SIGNAL := by simpa [has_tag] using h
    rw [hkey, hsig, Nat.shiftLeft_eq, Nat.shiftLeft_eq] at h1
    exact Nat.eq_of_mul_eq_mul_right (Nat.two_pow_pos 48) h1
  · intro h
    have h1 : b &&& NAN_MASK = NAN_SIGNAL := by rw [hkey, h, hsig]
    simp [has_tag, h1]

/-- Claim C6: `from_float` fails exactly on the bit patterns whose top 16
bits are the NaN-signal pattern (the tagged-value space, which the image of
`from_tag_and_data` always occupies); every successful construction reports
no tag, and `1.5` (bit pattern `0x3FF8000000000000`) succeeds tag-free. -/
theorem c6_from_float_collision :
    (∀ b, b < 2 ^ 64 → ((from_float b = none) ↔ b >>> 48 = 0xFFF0))
    ∧ (∀ b w, from_float b = some w → has_tag w = false)
    ∧ (∀ t d, from_float (from_tag_and_data t d) = none)
    ∧ from_float 0x3FF8000000000000 = some 0x3FF8000000000000
    ∧ has_tag 0x3FF8000000000000 = false := by
  refine ⟨?_, ?_, ?_, by decide, by decide⟩
  · intro b hb
    rw [← has_tag_iff_high b hb]
    unfold from_float
    cases h : has_tag b <;> simp [h]
  · intro b w hw
    unfold from_float at hw
    cases h : has_tag b with
    | true => rw [h] at hw; simp at hw
    | false =>
      rw [h] at hw
      simp at hw
      subst hw; exact h
  · intro t d
    have htag : has_tag (from_tag_and_data t d) = true := by
      unfold has_tag from_tag_and_data
      rw [shl_tag_and_mask_eq_zero, Nat.or_zero, Nat.and_distrib_right, Nat.and_assoc]
      have h1 : NAN_SIGNAL &&& NAN_MASK = NAN_SIGNAL := by decide
      have h2 : DAT_MASK &&& NAN_MASK = 0 := by decide
      rw [h1, h2, Nat.and_zero, Nat.or_zero]
      decide
    unfold from_float
    rw [htag]
    rfl

/-- Witness for claim C6: the concrete pattern `0xFFF0000000000005` (a NaN
carrying the signal pattern) is rejected by `from_float`. -/
theorem c6_from_float_collision_witness :
    (from_float 0xFFF0000000000005 = none)
      ↔ (0xFFF0000000000005 : Nat) >>> 48 = 0xFFF0 :=
  c6_from_float_collision.1 0xFFF0000000000005 (by decide)

/-- Claim C8: `with_dat` returns nothing when the union currently holds a
float; when it holds a tag it returns a copy whose NaN-signal and tag bits
equal the original's and whose data field is the new data (the receiver is a
pure value here, so it is unchanged by construction, matching the source's
clone-then-modify). -/
theorem c8_with_dat_frame (v d : Nat) (hd : d < 2 ^ 32) :
    (has_tag v = false → with_dat v d = none)
    ∧ (has_tag v = true → ∃ w, with_dat v d = some w
        ∧ w &&& NAN_MASK = v &&& NAN_MASK
        ∧ w &&& TAG_MASK = v &&& TAG_MASK
        ∧ w &&& DAT_MASK = d) := by
  have hdm : DAT_MASK = 2 ^ 32 - 1 := by decide
  have hd2 : d &&& DAT_MASK = d := by
    rw [hdm]; exact Nat.and_pow_two_sub_one_of_lt_two_pow hd
  constructor
  · intro hfalse; unfold with_dat; rw [hfalse]; rfl
  · intro htrue
    refine ⟨set_dat_unchecked v d, by unfold with_dat; rw [htrue]; rfl, ?_, ?_, ?_⟩
    · unfold set_dat_unchecked
      rw [hd2, Nat.and_distrib_right, Nat.and_assoc]
      have h1 : DAT_UNMASK &&& NAN_MASK = NAN_MASK := by decide
      have h2 : d &&& NAN_MASK = 0 := and_eq_zero_of_lt hd (by decide)
      rw [h1, h2, Nat.or_zero]
    · unfold set_dat_unchecked
      rw [hd2, Nat.and_distrib_right, Nat.and_assoc]
      have h1 : DAT_UNMASK &&& TAG_MASK = TAG_MASK := by decide
      have h2 : d &&& TAG_MASK = 0 := and_eq_zero_of_lt hd (by decide)
      rw [h1, h2, Nat.or_zero]
    · unfold set_dat_unchecked
      rw [hd2, Nat.and_distrib_right, Nat.and_assoc]
      have h1 : DAT_UNMASK &&& DAT_MASK = 0 := by decide
      rw [h1, Nat.and_zero, Nat.zero_or, hd2]

/-- Witness for claim C8: a concrete tagged word and replacement data. -/
theorem c8_with_dat_frame_witness :
    ∃ w, with_dat 0xFFF0000500000007 9 = some w
      ∧ w &&& NAN_MASK = 0xFFF0000500000007 &&& NAN_MASK
      ∧ w &&& TAG_MASK = 0xFFF0000500000007 &&& TAG_MASK
      ∧ w &&& DAT_MASK = 9 :=
  (c8_with_dat_frame 0xFFF0000500000007 9 (by decide)).2 (by decide)
